import Mathlib

/-!
Shallow embedding of the MatrixRain RSS proxy backend (src/app.py): the
feed-list loader, the RSS parser, the per-source aggregation loop, the
in-memory content cache with its TTL check, and the status/clear handlers.
Time is modelled as integer seconds; network and filesystem outcomes are
explicit inputs.
-/

namespace MatrixRain

/-- One XML element as produced by `xml.etree.ElementTree.fromstring`:
tag name, optional text content, and child elements in document order. -/
inductive XmlElem : Type where
  | node (tag : String) (text : Option String) (children : List XmlElem)

/-- The element's tag name. -/
def XmlElem.tag : XmlElem → String
  | .node t _ _ => t

/-- The element's text content (`None` when the element has no text). -/
def XmlElem.text : XmlElem → Option String
  | .node _ x _ => x

/-- The element's direct children. -/
def XmlElem.children : XmlElem → List XmlElem
  | .node _ _ cs => cs

mutual

/-- All proper descendants of an element in document (preorder) order;
`root.findall('.//t')` is a tag filter over this list. -/
def XmlElem.descendants : XmlElem → List XmlElem
  | .node _ _ cs => descendantsList cs

/-- Descendants-or-self of a forest of elements, in document order. -/
def descendantsList : List XmlElem → List XmlElem
  | [] => []
  | c :: cs => c :: (XmlElem.descendants c ++ descendantsList cs)

end

/-- Python `str.strip()`: the string with leading and trailing whitespace
removed. -/
def pyStrip (s : String) : String :=
  String.mk (((s.data.dropWhile Char.isWhitespace).reverse.dropWhile
    Char.isWhitespace).reverse)

/-- Python `str.upper()`: the string with every character upper-cased. -/
def pyUpper (s : String) : String :=
  String.mk (s.data.map Char.toUpper)

/-- `elem.find(t)`: the first direct child whose tag is `t`, or `None`. -/
def XmlElem.find (e : XmlElem) (t : String) : Option XmlElem :=
  e.children.find? (fun c => c.tag == t)

/-- `root.findall('.//item')`: every descendant element tagged `item`,
in document order. -/
def findallItems (root : XmlElem) : List XmlElem :=
  root.descendants.filter (fun e => e.tag == "item")

/-- The `for item in items` loop of `parse_rss_content`
(src/app.py lines 76-86), with `content` as the accumulator: per item,
the stripped title is appended upper-cased when non-empty, then the
stripped description likewise. -/
def parseLoop : List XmlElem → List String → List String
  | [], content => content
  | item :: items, content =>
    let title :=
      match item.find "title" with
      | some title_elem => pyStrip (title_elem.text.getD "")
      | none => ""
    let description :=
      match item.find "description" with
      | some desc_elem => pyStrip (desc_elem.text.getD "")
      | none => ""
    let content1 := if title ≠ "" then content ++ [pyUpper title] else content
    let content2 := if description ≠ "" then content1 ++ [pyUpper description] else content1
    parseLoop items content2

/-- `parse_rss_content` (src/app.py lines 69-91). The argument is the
outcome of `ET.fromstring` on the input text: `none` when the text is not
well-formed XML (the `ET.ParseError` branch logs and returns `[]`),
`some root` when it parses to the element `root`. -/
def parse_rss_content (xml : Option XmlElem) : List String :=
  match xml with
  | none => []
  | some root => parseLoop (findallItems root) []

/-- The spec's per-item token description (§4.2): the item's title text,
trimmed of surrounding whitespace and treated as empty when the element is
absent or has no text, emitted upper-cased when non-empty; then the
description treated the same way; title before description. -/
def itemTokens (item : XmlElem) : List String :=
  let title :=
    match item.find "title" with
    | some e => pyStrip (e.text.getD "")
    | none => ""
  let description :=
    match item.find "description" with
    | some e => pyStrip (e.text.getD "")
    | none => ""
  (if title = "" then [] else [pyUpper title]) ++
    (if description = "" then [] else [pyUpper description])

/-- A well-formed two-item document in which every item carries
`<title>Hello</title><description>World</description>`. -/
def twoItemDoc : XmlElem :=
  .node "rss" none
    [ .node "channel" none
        [ .node "item" none
            [ .node "title" (some "Hello") []
            , .node "description" (some "World") [] ]
        , .node "item" none
            [ .node "title" (some "Hello") []
            , .node "description" (some "World") [] ] ] ]

/-- The global `rss_cache` dict (src/app.py lines 19-23): `data` is the
token list or `None`, `timestamp` the capture time or `None`, `count` an
integer. Time is integer seconds. -/
structure RssCache where
  data : Option (List String)
  timestamp : Option Int
  count : Nat
deriving DecidableEq

/-- The cache state at startup: `{'data': None, 'timestamp': None,
'count': 0}`. -/
def initialCache : RssCache := ⟨none, none, 0⟩

/-- `CACHE_TTL = 300` seconds (src/app.py line 26). -/
def CACHE_TTL : Int := 300

/-- `is_cache_valid` (src/app.py lines 42-48): `False` when `data` or
`timestamp` is `None`, else whether the cache age is under the TTL. -/
def is_cache_valid (c : RssCache) (now : Int) : Bool :=
  match c.data, c.timestamp with
  | some _, some ts => decide (now - ts < CACHE_TTL)
  | _, _ => false

/-- The JSON payload of `/api/rss` (src/app.py lines 54-59 and 129-134). -/
structure RssResponse where
  texts : List String
  count : Nat
  timestamp : Int
  cached : Bool
deriving DecidableEq

/-- `get_cached_rss_content` (src/app.py lines 50-60): on a valid cache,
the cached payload tagged `cached=True`; otherwise `None`. -/
def get_cached_rss_content (c : RssCache) (now : Int) : Option RssResponse :=
  if is_cache_valid c now then
    some ⟨c.data.getD [], c.count, c.timestamp.getD 0, true⟩
  else
    none

/-- `update_rss_cache` (src/app.py lines 62-67): overwrite the cache with
the given texts, the current time, and the texts' length as count. -/
def update_rss_cache (texts : List String) (now : Int) : RssCache :=
  ⟨some texts, some now, texts.length⟩

/-- The outcome of `requests.get(url)` plus `ET.fromstring` for one feed
URL: `none` models a failed fetch (transport error or a non-2xx status
raised by `raise_for_status`); `some body` a success whose body parses to
`body` (`body = none` when the body is not well-formed XML). -/
abbrev FetchOutcome := Option (Option XmlElem)

/-- The `for feed_url in rss_feeds` loop of `get_rss_content`
(src/app.py lines 107-123): sources in list order; a failed source is
logged and skipped (`continue`); each success extends `all_content` with
its parsed tokens. -/
def aggregate (feeds : List String) (fetch : String → FetchOutcome) :
    List String :=
  match feeds with
  | [] => []
  | url :: rest =>
    match fetch url with
    | none => aggregate rest fetch
    | some body => parse_rss_content body ++ aggregate rest fetch

/-- `get_rss_content` (src/app.py lines 93-134), the `/api/rss` handler:
serve the cache on a hit; on a miss aggregate the sources, update the
cache only when the aggregation is non-empty, and answer with the fresh
tokens, their count, the current time and `cached=False`. `feeds` is the
list returned by `load_rss_feeds`; the pair is (response, cache after the
request). -/
def get_rss_content (c : RssCache) (now : Int) (feeds : List String)
    (fetch : String → FetchOutcome) : RssResponse × RssCache :=
  match get_cached_rss_content c now with
  | some cached_data => (cached_data, c)
  | none =>
    let all_content := aggregate feeds fetch
    let c1 := if all_content.isEmpty then c else update_rss_cache all_content now
    (⟨all_content, all_content.length, now, false⟩, c1)

/-- The JSON payload of `/api/cache/status` (src/app.py lines 144-160). -/
structure CacheStatus where
  cached : Bool
  count : Nat
  timestamp : Option Int
  age_seconds : Option Int
  ttl_seconds : Int
  remaining_ttl : Int
deriving DecidableEq

/-- `get_cache_status` (src/app.py lines 136-160), the `/api/cache/status`
handler: with a timestamp present, report validity, count, timestamp, age
and `max(0, CACHE_TTL - age_seconds)`; otherwise the absent-entry shape. -/
def get_cache_status (c : RssCache) (now : Int) : CacheStatus :=
  match c.timestamp with
  | some ts =>
    let age_seconds := now - ts
    ⟨is_cache_valid c now, c.count, some ts, some age_seconds, CACHE_TTL,
      max 0 (CACHE_TTL - age_seconds)⟩
  | none =>
    ⟨false, 0, none, none, CACHE_TTL, 0⟩

/-- `clear_cache` (src/app.py lines 162-173): the state effect of
`/api/cache/clear` — reset every field of `rss_cache`. -/
def clear_cache (_ : RssCache) : RssCache := ⟨none, none, 0⟩

/-- JSON values as produced by Python's `json.load`. -/
inductive Json : Type where
  | null
  | bool (b : Bool)
  | num (n : Int)
  | str (s : String)
  | arr (elems : List Json)
  | obj (fields : List (String × Json))

/-- State of the `rss_feeds.json` file as seen by `load_rss_feeds`:
`none` — file absent (`FileNotFoundError`); `some none` — present but not
valid JSON (`json.JSONDecodeError`); `some (some j)` — parses to `j`. -/
abbrev FeedFile := Option (Option Json)

/-- `data.get('feeds', [])` on the loaded JSON value: a key lookup with
default `[]` when the value is a JSON object; on every other value Python
raises `AttributeError` (`.error ()`), which `load_rss_feeds` does not
catch. -/
def jsonGetFeeds : Json → Except Unit Json
  | .obj fields =>
    .ok (((fields.find? (fun p => p.1 == "feeds")).map Prod.snd).getD (.arr []))
  | _ => .error ()

/-- `load_rss_feeds` (src/app.py lines 29-40): `[]` when the file is
absent or not valid JSON (the two caught exceptions, each logged), else
`data.get('feeds', [])`; `.error ()` models an uncaught exception
propagating to the caller. -/
def load_rss_feeds (file : FeedFile) : Except Unit Json :=
  match file with
  | none => .ok (.arr [])
  | some none => .ok (.arr [])
  | some (some data) => jsonGetFeeds data

/-- The cache-entry invariant of spec §3: `count == length(tokens)`, with
count 0 when the entry is absent. -/
def cacheInv (c : RssCache) : Prop :=
  match c.data with
  | none => c.count = 0
  | some texts => c.count = texts.length

/-- Cache states reachable from startup through the operations that touch
the cache: `update_rss_cache` (put), `clear_cache`, and a full `/api/rss`
request; the read-only handlers take the state as input and do not return
a new one. -/
inductive ReachableCache : RssCache → Prop where
  | init : ReachableCache initialCache
  | put (c : RssCache) (texts : List String) (now : Int) :
      ReachableCache c → ReachableCache (update_rss_cache texts now)
  | clear (c : RssCache) : ReachableCache c → ReachableCache (clear_cache c)
  | rss (c : RssCache) (now : Int) (feeds : List String)
      (fetch : String → FetchOutcome) :
      ReachableCache c → ReachableCache (get_rss_content c now feeds fetch).2

/-- The TTL constant unfolded. -/
theorem CACHE_TTL_eq : CACHE_TTL = 300 := rfl

/-- The cache state after a `/api/rss` request: unchanged on a hit,
unchanged on a miss with an empty aggregation, otherwise the freshly
stored aggregation. -/
theorem get_rss_content_snd (c : RssCache) (now : Int) (feeds : List String)
    (fetch : String → FetchOutcome) :
    (get_rss_content c now feeds fetch).2 =
      match get_cached_rss_content c now with
      | some _ => c
      | none =>
        if (aggregate feeds fetch).isEmpty then c
        else update_rss_cache (aggregate feeds fetch) now := by
  unfold get_rss_content
  cases get_cached_rss_content c now <;> rfl

/-- The parse loop extends its accumulator with each item's tokens in
order. -/
theorem parseLoop_eq (items : List XmlElem) (acc : List String) :
    parseLoop items acc = acc ++ items.flatMap itemTokens := by
  induction items generalizing acc with
  | nil => simp [parseLoop]
  | cons item items ih =>
    simp only [parseLoop, itemTokens, List.flatMap_cons, ih]
    by_cases ht : (match item.find "title" with
        | some title_elem => pyStrip (title_elem.text.getD "")
        | none => "") = "" <;>
      by_cases hd : (match item.find "description" with
        | some desc_elem => pyStrip (desc_elem.text.getD "")
        | none => "") = "" <;>
      simp [ht, hd]

/-- C2: on a well-formed document, `parse` returns exactly, for each
element matching `//item` in document order, the item's trimmed title
upper-cased when non-empty followed by its trimmed description upper-cased
when non-empty; a two-item document with
`<title>Hello</title><description>World</description>` per item yields
`["HELLO","WORLD","HELLO","WORLD"]`. -/
theorem parse_rss_content_items (root : XmlElem) :
    parse_rss_content (some root) = (findallItems root).flatMap itemTokens ∧
    parse_rss_content (some twoItemDoc) =
      ["HELLO", "WORLD", "HELLO", "WORLD"] := by
  constructor
  · simp [parse_rss_content, parseLoop_eq]
  · decide

/-- C7: on input text that is not well-formed XML (the `ET.ParseError`
branch of `parse_rss_content`), the parser returns the empty sequence
rather than raising; in this embedding the function is total, so no input
raises. -/
theorem parse_rss_content_malformed : parse_rss_content none = [] := rfl

/-- C3: the aggregation loop processes sources in list order; a failed
fetch contributes nothing and later sources still run; the result is the
concatenation of the parse results of the successful sources in order; an
all-failures run yields `[]`; with three sources whose second fails, the
result is the tokens of sources 1 and 3 concatenated in order. -/
theorem aggregate_skips_failures (feeds : List String)
    (fetch : String → FetchOutcome) :
    aggregate feeds fetch =
      ((feeds.filterMap fetch).map parse_rss_content).flatten ∧
    ((∀ url ∈ feeds, fetch url = none) → aggregate feeds fetch = []) ∧
    (∀ b1 b3 : Option XmlElem,
      aggregate ["s1", "s2", "s3"]
        (fun u => if u = "s1" then some b1
          else if u = "s3" then some b3 else none) =
        parse_rss_content b1 ++ parse_rss_content b3) := by
  refine ⟨?_, ?_, ?_⟩
  · induction feeds with
    | nil => rfl
    | cons u rest ih => cases hf : fetch u <;> simp [aggregate, hf, ih]
  · intro h
    induction feeds with
    | nil => rfl
    | cons u rest ih =>
      rw [aggregate, h u (by simp)]
      exact ih fun url hu => h url (by simp [hu])
  · intro b1 b3
    simp [aggregate]

/-- C4: the cache read is a hit exactly when both cache fields are present
and `now - capturedAt < CACHE_TTL`; a get at the very time of
`put(["A"])` is a hit carrying `["A"]` with count 1; a get more than 300
seconds after the put is a miss; and a miss leaves the stored entry
observable unchanged through the status query. -/
theorem cache_get_ttl_spec (c : RssCache) (now t : Int) :
    (is_cache_valid c now = true ↔
      ∃ texts ts, c.data = some texts ∧ c.timestamp = some ts ∧
        now - ts < CACHE_TTL) ∧
    get_cached_rss_content (update_rss_cache ["A"] t) t =
      some ⟨["A"], 1, t, true⟩ ∧
    (CACHE_TTL < now - t →
      get_cached_rss_content (update_rss_cache ["A"] t) now = none) ∧
    (∀ ts, c.timestamp = some ts → is_cache_valid c now = false →
      (get_cache_status c now).timestamp = some ts ∧
      (get_cache_status c now).count = c.count) := by
  refine ⟨?_, ?_, ?_, ?_⟩
  · cases hd : c.data <;> cases ht : c.timestamp <;>
      simp [is_cache_valid, hd, ht]
  · have hv : is_cache_valid ⟨some ["A"], some t, 1⟩ t = true := by
      simp only [is_cache_valid, decide_eq_true_eq]
      rw [CACHE_TTL_eq]
      omega
    simp [get_cached_rss_content, update_rss_cache, hv]
  · intro h
    rw [CACHE_TTL_eq] at h
    have hv : is_cache_valid ⟨some ["A"], some t, 1⟩ now = false := by
      simp only [is_cache_valid, decide_eq_false_iff_not]
      rw [CACHE_TTL_eq]
      omega
    simp [get_cached_rss_content, update_rss_cache, hv]
  · intro ts hts _
    simp [get_cache_status, hts]

/-- C1: the `/api/rss` handler serves the cached token list tagged
`cached=true` on a hit; on a miss it aggregates the loaded sources and
answers with the aggregated tokens, their count, the current time and
`cached=false`, storing the aggregation in the cache only when it is
non-empty. -/
theorem rss_endpoint_correct (c : RssCache) (now : Int) (feeds : List String)
    (fetch : String → FetchOutcome) :
    (∀ r, get_cached_rss_content c now = some r →
      get_rss_content c now feeds fetch = (r, c) ∧ r.cached = true ∧
      r.texts = c.data.getD [] ∧ r.count = c.count) ∧
    (get_cached_rss_content c now = none →
      (get_rss_content c now feeds fetch).1.texts = aggregate feeds fetch ∧
      (get_rss_content c now feeds fetch).1.count =
        (aggregate feeds fetch).length ∧
      (get_rss_content c now feeds fetch).1.timestamp = now ∧
      (get_rss_content c now feeds fetch).1.cached = false ∧
      (aggregate feeds fetch ≠ [] →
        (get_rss_content c now feeds fetch).2 =
          update_rss_cache (aggregate feeds fetch) now) ∧
      (aggregate feeds fetch = [] →
        (get_rss_content c now feeds fetch).2 = c)) := by
  constructor
  · intro r hr
    have hv : is_cache_valid c now = true := by
      cases hv : is_cache_valid c now
      · simp [get_cached_rss_content, hv] at hr
      · rfl
    have hr2 : r = ⟨c.data.getD [], c.count, c.timestamp.getD 0, true⟩ := by
      simp [get_cached_rss_content, hv] at hr
      exact hr.symm
    subst hr2
    exact ⟨by unfold get_rss_content; rw [hr], rfl, rfl, rfl⟩
  · intro hm
    unfold get_rss_content
    rw [hm]
    refine ⟨rfl, rfl, rfl, rfl, ?_, ?_⟩
    · intro hne
      cases hA : aggregate feeds fetch with
      | nil => exact absurd hA hne
      | cons x xs => simp [hA]
    · intro hA
      simp [hA]

/-- C5: a request whose aggregation yields zero tokens does not change the
cache: the state after the request equals the state before, and the status
query reports identical data at any time. -/
theorem empty_aggregation_preserves_cache (c : RssCache) (now t : Int)
    (feeds : List String) (fetch : String → FetchOutcome)
    (h : aggregate feeds fetch = []) :
    (get_rss_content c now feeds fetch).2 = c ∧
    get_cache_status (get_rss_content c now feeds fetch).2 t =
      get_cache_status c t := by
  have hs : (get_rss_content c now feeds fetch).2 = c := by
    rw [get_rss_content_snd]
    cases hc : get_cached_rss_content c now with
    | some r => rfl
    | none => simp [h]
  exact ⟨hs, by rw [hs]⟩

/-- C6: `count == length(tokens)` holds (with count 0 on an absent entry)
in every cache state reachable from startup through put, clear and the
`/api/rss` handler; the read-only handlers do not change the state. -/
theorem cache_count_invariant (c : RssCache) (h : ReachableCache c) :
    cacheInv c := by
  induction h with
  | init => rfl
  | put c texts now _ _ => rfl
  | clear c _ _ => rfl
  | rss c now feeds fetch _ ih =>
    rw [get_rss_content_snd]
    cases hc : get_cached_rss_content c now with
    | some r => exact ih
    | none =>
      cases hA : (aggregate feeds fetch).isEmpty with
      | true => exact ih
      | false => exact rfl

/-- C8 (counterexample): when `rss_feeds.json` holds valid JSON whose
top-level value is not an object — here the array `[]` — the load
operation raises (`data.get` on a list is an `AttributeError`, which is
not caught) instead of returning an empty sequence. -/
theorem load_rss_feeds_raises_on_array :
    load_rss_feeds (some (some (Json.arr []))) = .error () := rfl

/-- C8 (amended): the loader returns the empty sequence and logs on the
two handled failures — file absent, or contents not valid JSON; it
succeeds on any JSON object; but on valid JSON whose top-level value is
not an object it raises to the caller. -/
theorem load_rss_feeds_soft_failure :
    load_rss_feeds none = .ok (Json.arr []) ∧
    load_rss_feeds (some none) = .ok (Json.arr []) ∧
    (∀ fields, (load_rss_feeds (some (some (Json.obj fields)))).isOk = true) ∧
    (∀ j : Json, (∀ fields, j ≠ Json.obj fields) →
      load_rss_feeds (some (some j)) = .error ()) := by
  refine ⟨rfl, rfl, fun fields => rfl, fun j hj => ?_⟩
  cases j with
  | obj fields => exact absurd rfl (hj fields)
  | null => rfl
  | bool b => rfl
  | num n => rfl
  | str s => rfl
  | arr elems => rfl

/-- C9: `remaining_ttl` in the status response is exactly
`max 0 (CACHE_TTL - age_seconds)` when an entry exists, `0` when none
does, and is never negative. -/
theorem remaining_ttl_nonneg (c : RssCache) (now : Int) :
    (∀ ts, c.timestamp = some ts →
      (get_cache_status c now).remaining_ttl =
        max 0 (CACHE_TTL - (now - ts)) ∧
      (get_cache_status c now).age_seconds = some (now - ts)) ∧
    (c.timestamp = none →
      (get_cache_status c now).remaining_ttl = 0 ∧
      (get_cache_status c now).age_seconds = none) ∧
    0 ≤ (get_cache_status c now).remaining_ttl := by
  refine ⟨?_, ?_, ?_⟩
  · intro ts hts
    simp [get_cache_status, hts]
  · intro hts
    simp [get_cache_status, hts]
  · cases hts : c.timestamp with
    | none => simp [get_cache_status, hts]
    | some ts =>
      simp only [get_cache_status, hts]
      exact le_max_left 0 _

/-- C10: on an entry whose age has reached the TTL, the status query
reports `cached=false` while still returning the entry's count, its
non-null timestamp and an age that can exceed the TTL; a null timestamp
(with count 0) in the response occurs only when no entry exists. -/
theorem stale_status_reports_entry (c : RssCache) (now : Int) :
    (∀ ts, c.timestamp = some ts → CACHE_TTL ≤ now - ts →
      (get_cache_status c now).cached = false ∧
      (get_cache_status c now).count = c.count ∧
      (get_cache_status c now).timestamp = some ts ∧
      (get_cache_status c now).age_seconds = some (now - ts)) ∧
    ((get_cache_status c now).timestamp = none →
      c.timestamp = none ∧ (get_cache_status c now).count = 0) ∧
    ((get_cache_status (update_rss_cache ["A"] 0) 400).age_seconds =
        some 400 ∧
      CACHE_TTL < 400) := by
  refine ⟨?_, ?_, ?_⟩
  · intro ts hts hage
    rw [CACHE_TTL_eq] at hage
    have hv : is_cache_valid c now = false := by
      cases hd : c.data with
      | none => simp [is_cache_valid, hd]
      | some texts =>
        simp only [is_cache_valid, hd, hts, decide_eq_false_iff_not]
        rw [CACHE_TTL_eq]
        omega
    simp [get_cache_status, hts, hv]
  · intro h
    cases hts : c.timestamp with
    | none => simp [get_cache_status, hts]
    | some ts => simp [get_cache_status, hts] at h
  · constructor
    · simp [get_cache_status, update_rss_cache]
    · decide

/-- Witness for C1 at the empty-cache, no-source instance: the response is
fresh and the cache is untouched. -/
theorem rss_endpoint_correct_witness :
    (get_rss_content initialCache 0 [] (fun _ => none)).1.cached = false ∧
    (get_rss_content initialCache 0 [] (fun _ => none)).2 = initialCache := by
  have h := (rss_endpoint_correct initialCache 0 [] (fun _ => none)).2
    (by decide)
  exact ⟨h.2.2.2.1, h.2.2.2.2.2 rfl⟩

/-- Witness for C3 at a single always-failing source. -/
theorem aggregate_skips_failures_witness :
    aggregate ["a"] (fun _ => none) = [] :=
  (aggregate_skips_failures ["a"] (fun _ => none)).2.1 fun _ _ => rfl

/-- Witness for C4: 400 seconds after a put at time 0 the get is a miss. -/
theorem cache_get_ttl_spec_witness :
    get_cached_rss_content (update_rss_cache ["A"] 0) 400 = none :=
  (cache_get_ttl_spec initialCache 400 0).2.2.1 (by decide)

/-- Witness for C5: an all-sources-failed request over an existing entry
leaves the cache as it was. -/
theorem empty_aggregation_preserves_cache_witness :
    (get_rss_content (update_rss_cache ["A"] 0) 400 [] (fun _ => none)).2 =
      update_rss_cache ["A"] 0 :=
  (empty_aggregation_preserves_cache (update_rss_cache ["A"] 0) 400 0 []
    (fun _ => none) rfl).1

/-- Witness for C6 at the state put reaches from startup. -/
theorem cache_count_invariant_witness :
    cacheInv (update_rss_cache ["HELLO"] 5) :=
  cache_count_invariant _
    (ReachableCache.put initialCache ["HELLO"] 5 ReachableCache.init)

/-- Witness for C8's amended statement at the JSON value `null`. -/
theorem load_rss_feeds_soft_failure_witness :
    load_rss_feeds (some (some Json.null)) = .error () :=
  load_rss_feeds_soft_failure.2.2.2 Json.null fun _ h => Json.noConfusion h

/-- Witness for C9 at the absent-entry state. -/
theorem remaining_ttl_nonneg_witness :
    (get_cache_status initialCache 0).remaining_ttl = 0 ∧
    (get_cache_status initialCache 0).age_seconds = none :=
  (remaining_ttl_nonneg initialCache 0).2.1 rfl

/-- Witness for C10 at an entry captured at time 0 queried at time 300. -/
theorem stale_status_reports_entry_witness :
    (get_cache_status (update_rss_cache ["A"] 0) 300).cached = false ∧
    (get_cache_status (update_rss_cache ["A"] 0) 300).count =
      (update_rss_cache ["A"] 0).count ∧
    (get_cache_status (update_rss_cache ["A"] 0) 300).timestamp = some 0 ∧
    (get_cache_status (update_rss_cache ["A"] 0) 300).age_seconds =
      some (300 - 0) :=
  (stale_status_reports_entry (update_rss_cache ["A"] 0) 300).1 0 rfl
    (by decide)

end MatrixRain
